import Mathlib

/-!
Verification development for the stk-dropdown selection-widget library.

The TypeScript sources are shallowly embedded: each class method that the
properties below talk about is translated into a pure Lean function over an
explicit state record.  Synchronous state-manager subscriptions (the reactive
store notifies its subscribers inside every `set` call) are inlined into the
state transformers in the order the handlers fire in the source.  DOM
rendering is a no-op on the embedded state and is dropped.
-/

namespace StkDropdown

/-- JavaScript primitive values used as entry values (`string | number`).
Equality models JS strict equality `===`, which never identifies a string
with a number. -/
inductive JSValue where
  | num (n : Int)
  | str (s : String)
deriving DecidableEq, BEq

/-- One selectable entry (source: `DropdownItem` in types.ts):
`{ value: string | number; text: string; disabled?: boolean }`.
The optional `disabled` flag defaults to `false` (absent = falsy). -/
structure Item where
  value : JSValue
  text : String
  disabled : Bool := false
deriving DecidableEq, BEq

/-- Source: `SELECT_ALL_VALUE = -1` in types.ts. -/
def SELECT_ALL_VALUE : JSValue := .num (-1)

/-! ### Case-insensitive string matching helpers

JS `text.toLowerCase()` is modelled by lower-casing the character list;
`String.prototype.startsWith` and `String.prototype.includes` are modelled
on character lists. -/

/-- Lower-cased character list of a string (models `s.toLowerCase()`). -/
def lowerList (s : String) : List Char :=
  s.toList.map Char.toLower

/-- Does `sub` occur at the start of `l`? (models `l.startsWith(sub)`). -/
def leadsWith : List Char → List Char → Bool
  | [], _ => true
  | _ :: _, [] => false
  | a :: as, b :: bs => a == b && leadsWith as bs

/-- Does `sub` occur somewhere inside `l`? (models `l.includes(sub)`). -/
def occursIn (sub : List Char) : List Char → Bool
  | [] => leadsWith sub []
  | l@(_ :: t) => leadsWith sub l || occursIn sub t

/-! ### DataSource (src/lib/data-source.ts)

The backing input is one of a static array, a one-shot future (a settled
promise whose outcome never changes between awaits), or a factory of
futures.  A factory-backed source is modelled with a call counter: the
`n`-th invocation of the factory yields `results n`.  `fetch` is the pure
translation of `DataSource.fetch`: it returns the post-state, the list of
events emitted by this invocation in emission order, and the settled
result (`Except` models resolve/reject). -/

/-- The `DataSourceInput` union: array, promise, or fetcher function. -/
inductive DSInput (ε : Type) where
  | staticArr (items : List Item)
  | future (result : Except ε (List Item))
  | factory (results : Nat → Except ε (List Item))

/-- Mutable fields of a `DataSource` instance: `_cache`, `_loading`, plus
an invocation counter for factory-backed sources. -/
structure DSState (ε : Type) where
  cache : Option (List Item)
  loading : Bool
  calls : Nat

/-- Events a `DataSource` emits. -/
inductive DSEvent (ε : Type) where
  | loading
  | load (items : List Item)
  | error (e : ε)

/-- Result of one `fetch` invocation: post-state, emitted events in order,
and the value the returned promise settles with. -/
structure FetchOutcome (ε : Type) where
  state : DSState ε
  events : List (DSEvent ε)
  result : Except ε (List Item)

namespace DataSource

/-- The constructor (data-source.ts lines 32-40): a static array is put in
the cache immediately; future/factory sources start with an empty cache. -/
def init {ε : Type} : DSInput ε → DSState ε
  | .staticArr items => { cache := some items, loading := false, calls := 0 }
  | _ => { cache := none, loading := false, calls := 0 }

/-- `DataSource.fetch(force)` (data-source.ts lines 49-84).
Branch order follows the source: cache-hit check first, then the static
array branch, then the asynchronous branch which sets the loading flag,
emits `loading`, awaits the future (invoking the factory afresh for a
factory-backed source), and on success caches and emits `load`, on
failure clears the loading flag, emits `error`, and rethrows. -/
def fetch {ε : Type} (input : DSInput ε) (s : DSState ε) (force : Bool) :
    FetchOutcome ε :=
  match s.cache, force with
  | some c, false =>
      { state := s, events := [], result := .ok c }
  | _, _ =>
      match input with
      | .staticArr items =>
          { state := { s with cache := some items },
            events := [.load items], result := .ok items }
      | .future r =>
          match r with
          | .ok data =>
              let s1 := { s with cache := some data, loading := false }
              { state := s1, events := [.loading, .load data], result := .ok data }
          | .error e =>
              let s1 := { s with loading := false }
              { state := s1, events := [.loading, .error e], result := .error e }
      | .factory f =>
          match f s.calls with
          | .ok data =>
              let s1 := { s with cache := some data, loading := false, calls := s.calls + 1 }
              { state := s1, events := [.loading, .load data], result := .ok data }
          | .error e =>
              let s1 := { s with loading := false, calls := s.calls + 1 }
              { state := s1, events := [.loading, .error e], result := .error e }

/-- `DataSource.invalidate()` (data-source.ts lines 92-94). -/
def invalidate {ε : Type} (s : DSState ε) : DSState ε :=
  { s with cache := none }

end DataSource

/-- Demo entry used in concrete instantiations. -/
def itemX : Item := { value := .num 1, text := "X" }

/-! ### Keyboard navigation (dropdown-component.ts lines 264-280; the
multiselect and combobox components carry literally identical private
copies of `_findNextEnabledIndex`). -/

/-- Navigation direction of an arrow key. -/
inductive Direction where
  | up
  | down
deriving DecidableEq

/-- Placeholder entry: `items[i]` is only read under the loop bound check,
so the fallback value of the non-dependent list access is never used. -/
def dummyItem : Item := { value := .num 0, text := "" }

namespace DropdownComponent

/-- The body of the `while` loop of `_findNextEnabledIndex` for
`direction = down` (`step = +1`): starting at index `i`, return the first
in-bounds index holding an enabled entry, walking upward; `none` once the
index leaves the bounds. -/
def scanStepDown (items : List Item) (i : Int) : Option Int :=
  if h : 0 ≤ i ∧ i < items.length then
    if (items.getD i.toNat dummyItem).disabled then scanStepDown items (i + 1)
    else some i
  else none
termination_by (items.length - i).toNat
decreasing_by simp_wf; omega

/-- The body of the `while` loop of `_findNextEnabledIndex` for
`direction = up` (`step = -1`). -/
def scanStepUp (items : List Item) (i : Int) : Option Int :=
  if h : 0 ≤ i ∧ i < items.length then
    if (items.getD i.toNat dummyItem).disabled then scanStepUp items (i - 1)
    else some i
  else none
termination_by (i + 1).toNat
decreasing_by simp_wf; omega

/-- `_findNextEnabledIndex(currentIndex, direction, items)`: step `+1` or
`-1` away from `currentIndex`, skip disabled entries, and fall back to
`currentIndex` when the walk leaves the bounds. -/
def findNextEnabledIndex (currentIndex : Int) (direction : Direction)
    (items : List Item) : Int :=
  match direction with
  | .down => (scanStepDown items (currentIndex + 1)).getD currentIndex
  | .up => (scanStepUp items (currentIndex - 1)).getD currentIndex

end DropdownComponent

/-- The entry a non-negative integer index denotes, `none` out of bounds. -/
def entryAt (items : List Item) (k : Int) : Option Item :=
  if 0 ≤ k then items.get? k.toNat else none

/-- Entries A, B (disabled), C used by the disabled-skip scenario. -/
def demoABC : List Item :=
  [{ value := .num 1, text := "A" },
   { value := .num 2, text := "B", disabled := true },
   { value := .num 3, text := "C" }]

/-! ### Multiselect (multiselect-component.ts)

The reactive store notifies subscribers synchronously inside `set`; the
handlers registered by `_setupMultiselectSubscriptions` are inlined into
the corresponding `set` transformers below, in registration order.  The
handlers that only re-render DOM are identities on the embedded state.
Each stateful operation additionally returns the list of `change`
payloads it emits. -/

/-- `MultiselectState` (types.ts). -/
structure MultiselectState where
  opened : Bool
  disabled : Bool
  dataItems : List Item
  selectedItems : List Item
  filterText : String
  filteredItems : List Item
  allSelected : Bool
  focusedIndex : Int
deriving DecidableEq

namespace MultiselectComponent

/-- `_applyFilter` (multiselect variant): a non-empty filter text keeps
the entries whose lower-cased text includes the lower-cased filter. -/
def applyFilter (items : List Item) (filterText : String) : List Item :=
  if filterText ≠ "" then
    items.filter (fun item => occursIn (lowerList filterText) (lowerList item.text))
  else items

/-- `_updateAllSelectedState`: recompute the `allSelected` flag as
`enabledItems.length > 0 && selectedItems.length === enabledItems.length`. -/
def updateAllSelectedState (st : MultiselectState) : MultiselectState :=
  let enabledItems := st.dataItems.filter (fun x => !x.disabled)
  { st with allSelected :=
      decide (0 < enabledItems.length) &&
      decide (st.selectedItems.length = enabledItems.length) }

/-- Store write `set('selectedItems', v)` with its synchronous
subscription: re-render tags and list (no state effect) and recompute
`allSelected`. -/
def setSelectedItems (st : MultiselectState) (v : List Item) : MultiselectState :=
  updateAllSelectedState { st with selectedItems := v }

/-- Store write `set('filterText', t)` with its synchronous subscription:
re-filter against the current data and reset the keyboard focus. -/
def setFilterText (st : MultiselectState) (t : String) : MultiselectState :=
  let st1 := { st with filterText := t }
  let st2 := { st1 with filteredItems := applyFilter st1.dataItems t }
  { st2 with focusedIndex := -1 }

/-- Store write `set('dataItems', v)` with its synchronous subscription:
re-filter with the current filter text. -/
def setDataItems (st : MultiselectState) (v : List Item) : MultiselectState :=
  let st1 := { st with dataItems := v }
  { st1 with filteredItems := applyFilter v st1.filterText }

/-- The `MultiselectComponent` constructor (lines 40-88): resolve the
initial `values` against `items` (note: with no disabled check), seed the
state, and compute the initial `allSelected` flag against the length of
ALL items.  The subscriptions are not yet active while the initial state
record is built. -/
def construct (items : List Item) (values : Option (List JSValue)) : MultiselectState :=
  let initialSelected :=
    match values with
    | some vs => items.filter (fun item => vs.contains item.value)
    | none => []
  { opened := false, disabled := false, dataItems := items,
    selectedItems := initialSelected, filterText := "", filteredItems := items,
    allSelected :=
      decide (initialSelected.length = items.length) && decide (0 < items.length),
    focusedIndex := -1 }

/-- The `value(values)` setter (lines 99-128): `[-1]` selects all enabled
entries, `[]` clears, otherwise select the enabled entries whose value
occurs in `values`.  Returns the new state and the emitted `change`
payloads. -/
def valueSet (st : MultiselectState) (values : List JSValue) :
    MultiselectState × List (List Item) :=
  let items := st.dataItems
  if values = [SELECT_ALL_VALUE] then
    let enabledItems := items.filter (fun i => !i.disabled)
    let st1 := setSelectedItems st enabledItems
    ({ st1 with allSelected := true }, [enabledItems])
  else if values = [] then
    let st1 := setSelectedItems st []
    ({ st1 with allSelected := false }, [[]])
  else
    let selected := items.filter (fun item => values.contains item.value && !item.disabled)
    let st1 := setSelectedItems st selected
    (updateAllSelectedState st1, [selected])

/-- `setItems(items)` (lines 134-148): store the new data (whose
subscription re-filters), intersect the selection with the new values,
re-filter explicitly, recompute `allSelected`. -/
def setItems (st : MultiselectState) (items : List Item) : MultiselectState :=
  let st1 := setDataItems st items
  let newSelected := st1.selectedItems.filter (fun sel =>
    items.any (fun i => i.value == sel.value))
  let st2 := setSelectedItems st1 newSelected
  let st3 := { st2 with filteredItems := applyFilter items st2.filterText }
  updateAllSelectedState st3

/-- The guard `selectedItems.length >= maxSelectedItems`, where the
configuration value defaults to `Infinity` (modelled by `none`, for which
the comparison is always false). -/
def atLimit : Option Nat → Nat → Bool
  | none, _ => false
  | some m, n => decide (m ≤ n)

/-- `_toggleItem(item)` (lines 393-413): remove when selected (by value);
otherwise add at the end unless the selection has reached the ceiling, in
which case return silently with no state change and no event. -/
def toggleItem (maxSelectedItems : Option Nat) (st : MultiselectState)
    (item : Item) : MultiselectState × List (List Item) :=
  let selectedItems := st.selectedItems
  let isSelected := selectedItems.any (fun i => i.value == item.value)
  if isSelected then
    let newSelected := selectedItems.filter (fun i => !(i.value == item.value))
    (setSelectedItems st newSelected, [newSelected])
  else if atLimit maxSelectedItems selectedItems.length then
    (st, [])
  else
    let newSelected := selectedItems ++ [item]
    (setSelectedItems st newSelected, [newSelected])

/-- `_toggleSelectAll` (lines 416-433). -/
def toggleSelectAll (st : MultiselectState) : MultiselectState × List (List Item) :=
  if st.allSelected then
    let st1 := setSelectedItems st []
    ({ st1 with allSelected := false }, [[]])
  else
    let enabledItems := st.dataItems.filter (fun x => !x.disabled)
    let st1 := setSelectedItems st enabledItems
    ({ st1 with allSelected := true }, [enabledItems])

/-- The handler check `Number(target.dataset.value) === SELECT_ALL_VALUE`
after the `String(item.value)` dataset round-trip; for string values only
the exact literal is modelled (sufficient for the concrete inputs used
below). -/
def datasetValueIsSelectAll : JSValue → Bool
  | .num n => n == -1
  | .str s => s == "-1"

/-- The keyboard Enter/Space branch (lines 377-387): activate the focused
entry only when the focus is in bounds and the entry is enabled. -/
def keydownActivate (maxSelectedItems : Option Nat) (st : MultiselectState) :
    MultiselectState × List (List Item) :=
  let filteredItems := st.filteredItems
  let idx := st.focusedIndex
  if 0 ≤ idx ∧ idx < filteredItems.length then
    match filteredItems.get? idx.toNat with
    | some item => if !item.disabled then toggleItem maxSelectedItems st item else (st, [])
    | none => (st, [])
  else (st, [])

/-- The list `mousedown` delegate (lines 240-265) for a click landing on
the rendered element of the filtered entry at `index`.  The rendered
element carries the disabled CSS class exactly when the entry is
disabled, and the source guard proceeds into the toggle branch only when
that class IS present; clicks on enabled entries fall through with no
effect. -/
def mousedownOnItem (maxSelectedItems : Option Nat) (st : MultiselectState)
    (index : Nat) : MultiselectState × List (List Item) :=
  match st.filteredItems.get? index with
  | some item =>
      if item.disabled then
        if datasetValueIsSelectAll item.value then toggleSelectAll st
        else toggleItem maxSelectedItems st item
      else (st, [])
  | none => (st, [])

end MultiselectComponent

/-- The spec formulation of the all-selected flag, for comparison with
the code: the set of enabled entries' values is a subset of, and equal in
size to, the set of selected entries' values. -/
def specAllSelected (st : MultiselectState) : Prop :=
  ((st.dataItems.filter (fun x => !x.disabled)).map Item.value).toFinset ⊆
      (st.selectedItems.map Item.value).toFinset ∧
  ((st.dataItems.filter (fun x => !x.disabled)).map Item.value).toFinset.card =
      (st.selectedItems.map Item.value).toFinset.card

/-- The spec condition is decidable, so concrete states can be settled by
evaluation. -/
instance specAllSelectedDecidable (st : MultiselectState) :
    Decidable (specAllSelected st) := by
  unfold specAllSelected
  infer_instance

/-! ### Combobox (combobox-component.ts) and Dropdown (dropdown-component.ts) -/

/-- `FilterStrategy` (types.ts). -/
inductive FilterStrategy where
  | contains
  | startsWith
  | none
deriving DecidableEq

/-- `ComboboxState` (types.ts). -/
structure ComboboxState where
  opened : Bool
  disabled : Bool
  dataItems : List Item
  selectedItem : Option Item
  focusedIndex : Int
  filterText : String
  filteredItems : List Item
deriving DecidableEq

/-- `DropdownState` (types.ts). -/
structure DropdownState where
  opened : Bool
  disabled : Bool
  dataItems : List Item
  selectedItem : Option Item
  focusedIndex : Int
deriving DecidableEq

namespace ComboboxComponent

/-- `_applyFilter` (combobox-component.ts lines 343-365): inactive below
the minimum length (or on empty text), identity for the `none` strategy,
case-insensitive comparison of the entry text against the filter text for
`startsWith` and `contains`. -/
def applyFilter (strategy : FilterStrategy) (minFilterLength : Nat)
    (items : List Item) (filterText : String) : List Item :=
  if filterText = "" ∨ filterText.length < minFilterLength then items
  else
    match strategy with
    | .none => items
    | .startsWith =>
        items.filter (fun item => leadsWith (lowerList filterText) (lowerList item.text))
    | .contains =>
        items.filter (fun item => occursIn (lowerList filterText) (lowerList item.text))

/-- Store write `set('filterText', t)` with its synchronous subscription
(lines 220-226): re-filter, reset the keyboard focus, emit `filtering`.
The public programmatic `filter(text)` method is exactly this write. -/
def setFilterText (strategy : FilterStrategy) (minFilterLength : Nat)
    (st : ComboboxState) (t : String) : ComboboxState × List String :=
  let st1 := { st with filterText := t }
  let st2 := { st1 with filteredItems := applyFilter strategy minFilterLength st1.dataItems t }
  ({ st2 with focusedIndex := -1 }, [t])

/-- `setItems(items)` (lines 112-124): store the new data (whose
subscription re-filters with the current text), re-filter explicitly, and
drop the selection when its value is gone from the new data. -/
def setItems (strategy : FilterStrategy) (minFilterLength : Nat)
    (st : ComboboxState) (items : List Item) : ComboboxState :=
  let st1 := { st with dataItems := items }
  let st2 := { st1 with filteredItems := applyFilter strategy minFilterLength items st1.filterText }
  let st3 := { st2 with filteredItems := applyFilter strategy minFilterLength items st2.filterText }
  match st3.selectedItem with
  | some sel =>
      if items.any (fun x => x.value == sel.value) then st3
      else { st3 with selectedItem := Option.none }
  | Option.none => st3

/-- The `value(val)` setter guard (lines 95-106): resolve `val` against
the current data by value; the resolved entry is handed to `_selectItem`
only when it exists and is enabled — `none` means the call is a no-op. -/
def valueSetterResolves (dataItems : List Item) (v : JSValue) : Option Item :=
  match dataItems.find? (fun i => i.value == v) with
  | some item => if !item.disabled then some item else Option.none
  | Option.none => Option.none

/-- The keyboard Enter branch (lines 315-325): the entry handed to
`_selectItem`, `none` when nothing happens. -/
def keydownEnterActivates (st : ComboboxState) : Option Item :=
  if 0 ≤ st.focusedIndex ∧ st.focusedIndex < st.filteredItems.length then
    match st.filteredItems.get? st.focusedIndex.toNat with
    | some item => if !item.disabled then some item else Option.none
    | Option.none => Option.none
  else Option.none

end ComboboxComponent

namespace DropdownComponent

/-- `setItems(items)` (dropdown-component.ts lines 96-104): store the new
data and drop the selection when its value is gone from the new data. -/
def setItems (st : DropdownState) (items : List Item) : DropdownState :=
  let st1 := { st with dataItems := items }
  match st1.selectedItem with
  | some sel =>
      if items.any (fun x => x.value == sel.value) then st1
      else { st1 with selectedItem := Option.none }
  | Option.none => st1

/-- The `value(val)` setter guard (dropdown-component.ts lines 79-90),
literally the same resolution as the combobox variant. -/
def valueSetterResolves (dataItems : List Item) (v : JSValue) : Option Item :=
  match dataItems.find? (fun i => i.value == v) with
  | some item => if !item.disabled then some item else Option.none
  | Option.none => Option.none

/-- The keyboard Enter/Space branch (lines 241-252), over the raw data
set (the dropdown has no filtered collection). -/
def keydownActivates (st : DropdownState) : Option Item :=
  if 0 ≤ st.focusedIndex ∧ st.focusedIndex < st.dataItems.length then
    match st.dataItems.get? st.focusedIndex.toNat with
    | some item => if !item.disabled then some item else Option.none
    | Option.none => Option.none
  else Option.none

end DropdownComponent

/-! ### Array aliasing model for the spread copies (claim C10)

JS arrays are heap references; the spread syntax allocates a fresh array
holding the same elements.  A heap is a list of array cells, a reference
is a cell index; `alloc` appends a fresh cell, `write` models a caller
mutating an array in place through its reference. -/

/-- A heap of array cells. -/
structure Heap where
  cells : List (List Item)
deriving DecidableEq

namespace Heap

/-- Allocate a fresh cell holding `v`; returns the new heap and the fresh
reference. -/
def alloc (h : Heap) (v : List Item) : Heap × Nat :=
  (⟨h.cells ++ [v]⟩, h.cells.length)

/-- Dereference (out-of-range reads the empty array; all uses are guarded
by a validity hypothesis). -/
def read (h : Heap) (r : Nat) : List Item :=
  h.cells.getD r []

/-- In-place mutation of the array behind `r`. -/
def write (h : Heap) (r : Nat) (v : List Item) : Heap :=
  ⟨h.cells.set r v⟩

end Heap

namespace MultiselectComponent

/-- The `value()` getter (line 101): `return [...selectedItems]` — read
the state cell and return a freshly allocated copy. -/
def valueGetCopy (h : Heap) (selectedItemsRef : Nat) : Heap × Nat :=
  h.alloc (h.read selectedItemsRef)

/-- The `setItems` store write (line 135): `set('dataItems', [...items])`
— read the caller array and store a freshly allocated copy. -/
def setItemsCopy (h : Heap) (callerItemsRef : Nat) : Heap × Nat :=
  h.alloc (h.read callerItemsRef)

end MultiselectComponent

/-- Demo entries for the concrete instantiations below. -/
def itemA : Item := { value := .num 1, text := "A" }

/-- Disabled demo entry. -/
def itemB : Item := { value := .num 2, text := "B", disabled := true }

/-- Demo entry distinct from the others. -/
def itemC : Item := { value := .num 3, text := "C" }

/-- Demo city entry. -/
def itemMoscow : Item := { value := .num 1, text := "Moscow" }

/-- Demo city entry. -/
def itemMinsk : Item := { value := .num 2, text := "Minsk" }

/-- Demo city entry. -/
def itemSamara : Item := { value := .num 3, text := "Samara" }

/-- Demo city collection (scenario C of the spec). -/
def demoCities : List Item := [itemMoscow, itemMinsk, itemSamara]

/-- Three enabled demo entries for the over-limit programmatic selection. -/
def demoRGB : List Item :=
  [{ value := .num 1, text := "R" },
   { value := .num 2, text := "G" },
   { value := .num 3, text := "B" }]

/-- Combobox state with a non-initial focus, used against claim C9. -/
def cbStateCX : ComboboxState :=
  { opened := true, disabled := false, dataItems := [itemA, itemB],
    selectedItem := Option.none, focusedIndex := 1, filterText := "",
    filteredItems := [itemA, itemB] }

/-- Under the loop bound check the non-dependent access agrees with
`entryAt`. -/
theorem entryAt_of_bounds (items : List Item) (i : Int) (h0 : 0 ≤ i)
    (hl : i < items.length) :
    entryAt items i = some (items.getD i.toNat dummyItem) := by
  simp only [entryAt, if_pos h0]
  rcases hg : items.get? i.toNat with _ | v
  · rw [List.get?_eq_none] at hg
    omega
  · rw [List.get?_eq_getElem?] at hg
    simp [List.getD_eq_getElem?_getD, hg]

namespace DropdownComponent

/-- Soundness of the downward scan: a found index lies on or after the
start, is in bounds and enabled, and every index between the start and it
holds a disabled entry. -/
theorem scanStepDown_some (items : List Item) (i j : Int)
    (h : scanStepDown items i = some j) :
    i ≤ j ∧ 0 ≤ j ∧ j < items.length ∧
    (∃ it, entryAt items j = some it ∧ it.disabled = false) ∧
    (∀ k : Int, i ≤ k → k < j →
      ∃ it, entryAt items k = some it ∧ it.disabled = true) := by
  rw [scanStepDown] at h
  split at h
  next hb =>
    split at h
    next hd =>
      have ih := scanStepDown_some items (i + 1) j h
      refine ⟨by omega, ih.2.1, ih.2.2.1, ih.2.2.2.1, ?_⟩
      intro k hk1 hk2
      rcases lt_or_ge k (i + 1) with hk | hk
      · have hki : k = i := by omega
        subst hki
        exact ⟨items.getD k.toNat dummyItem, entryAt_of_bounds items k hb.1 hb.2, hd⟩
      · exact ih.2.2.2.2 k hk hk2
    next hd =>
      have hj : i = j := by injection h
      subst hj
      refine ⟨le_refl i, hb.1, hb.2,
        ⟨items.getD i.toNat dummyItem, entryAt_of_bounds items i hb.1 hb.2, by
          simpa using hd⟩, ?_⟩
      intro k hk1 hk2
      omega
  next hb => exact absurd h (by simp)
termination_by (items.length - i).toNat
decreasing_by simp_wf; omega

/-- Completeness of the downward scan: if the walk exhausted the range
starting from an in-range-or-zero start, every in-bounds index on or
after the start holds a disabled entry. -/
theorem scanStepDown_none (items : List Item) (i : Int)
    (h : scanStepDown items i = none) (hi : 0 ≤ i) :
    ∀ k : Int, i ≤ k → 0 ≤ k → k < items.length →
      ∃ it, entryAt items k = some it ∧ it.disabled = true := by
  rw [scanStepDown] at h
  split at h
  next hb =>
    split at h
    next hd =>
      have ih := scanStepDown_none items (i + 1) h (by omega)
      intro k hk1 hk2 hk3
      rcases lt_or_ge k (i + 1) with hk | hk
      · have hki : k = i := by omega
        subst hki
        exact ⟨items.getD k.toNat dummyItem, entryAt_of_bounds items k hb.1 hb.2, hd⟩
      · exact ih k hk hk2 hk3
    next hd => exact absurd h (by simp)
  next hb =>
    intro k hk1 hk2 hk3
    omega
termination_by (items.length - i).toNat
decreasing_by simp_wf; omega

/-- Soundness of the upward scan, mirror image of the downward case. -/
theorem scanStepUp_some (items : List Item) (i j : Int)
    (h : scanStepUp items i = some j) :
    j ≤ i ∧ 0 ≤ j ∧ j < items.length ∧
    (∃ it, entryAt items j = some it ∧ it.disabled = false) ∧
    (∀ k : Int, j < k → k ≤ i →
      ∃ it, entryAt items k = some it ∧ it.disabled = true) := by
  rw [scanStepUp] at h
  split at h
  next hb =>
    split at h
    next hd =>
      have ih := scanStepUp_some items (i - 1) j h
      refine ⟨by omega, ih.2.1, ih.2.2.1, ih.2.2.2.1, ?_⟩
      intro k hk1 hk2
      rcases lt_or_ge (i - 1) k with hk | hk
      · have hki : k = i := by omega
        subst hki
        exact ⟨items.getD k.toNat dummyItem, entryAt_of_bounds items k hb.1 hb.2, hd⟩
      · exact ih.2.2.2.2 k hk1 (by omega)
    next hd =>
      have hj : i = j := by injection h
      subst hj
      refine ⟨le_refl i, hb.1, hb.2,
        ⟨items.getD i.toNat dummyItem, entryAt_of_bounds items i hb.1 hb.2, by
          simpa using hd⟩, ?_⟩
      intro k hk1 hk2
      omega
  next hb => exact absurd h (by simp)
termination_by (i + 1).toNat
decreasing_by simp_wf; omega

/-- Completeness of the upward scan: if the walk exhausted the range
starting below the upper bound, every in-bounds index on or before the
start holds a disabled entry. -/
theorem scanStepUp_none (items : List Item) (i : Int)
    (h : scanStepUp items i = none) (hi : i < items.length) :
    ∀ k : Int, k ≤ i → 0 ≤ k → k < items.length →
      ∃ it, entryAt items k = some it ∧ it.disabled = true := by
  rw [scanStepUp] at h
  split at h
  next hb =>
    split at h
    next hd =>
      have ih := scanStepUp_none items (i - 1) h (by omega)
      intro k hk1 hk2 hk3
      rcases lt_or_ge (i - 1) k with hk | hk
      · have hki : k = i := by omega
        subst hki
        exact ⟨items.getD k.toNat dummyItem, entryAt_of_bounds items k hb.1 hb.2, hd⟩
      · exact ih k hk hk2 hk3
    next hd => exact absurd h (by simp)
  next hb =>
    intro k hk1 hk2 hk3
    omega
termination_by (i + 1).toNat
decreasing_by simp_wf; omega

end DropdownComponent

/-! ### Claim C2 — fetch event ordering -/

/-- C2 counterexample: the claim states that for EVERY backing kind
(static array included) a successful fetch invocation emits exactly
`[loading, load]`.  A static-array-backed source fetched with
`force = true` resolves successfully but emits only `[load]` — the
`loading` event is never emitted on the static branch
(data-source.ts lines 56-60 return before the loading flag/emit). -/
theorem C2_event_ordering_counterexample :
    (DataSource.fetch (ε := String) (.staticArr [itemX])
        (DataSource.init (.staticArr [itemX])) true).result = .ok [itemX] ∧
    (DataSource.fetch (ε := String) (.staticArr [itemX])
        (DataSource.init (.staticArr [itemX])) true).events = [.load [itemX]] ∧
    (DataSource.fetch (ε := String) (.staticArr [itemX])
        (DataSource.init (.staticArr [itemX])) true).events ≠
      [DSEvent.loading, DSEvent.load [itemX]] := by
  refine ⟨rfl, rfl, ?_⟩
  intro h
  simp [DataSource.fetch, DataSource.init] at h

/-- C2 (amended): a cache-hit fetch emits no events and resolves with the
cached collection; a static-array-backed fetch that reaches the source
emits exactly `[load]`; a future- or factory-backed fetch that reaches
the source emits exactly `[loading, load]` on success and
`[loading, error]` on failure — in particular `loading` is emitted
strictly before the corresponding `load`/`error` of the same
asynchronous invocation. -/
theorem C2_event_ordering_amended {ε : Type} :
    (∀ (input : DSInput ε) (s : DSState ε) (c : List Item),
        s.cache = some c →
        (DataSource.fetch input s false).events = [] ∧
        (DataSource.fetch input s false).result = .ok c)
    ∧ (∀ (items : List Item) (s : DSState ε) (force : Bool),
        s.cache = none ∨ force = true →
        (DataSource.fetch (.staticArr items) s force).events = [DSEvent.load items])
    ∧ (∀ (r : Except ε (List Item)) (s : DSState ε) (force : Bool),
        s.cache = none ∨ force = true →
        (DataSource.fetch (.future r) s force).events =
          match r with
          | .ok d => [DSEvent.loading, DSEvent.load d]
          | .error e => [DSEvent.loading, DSEvent.error e])
    ∧ (∀ (f : Nat → Except ε (List Item)) (s : DSState ε) (force : Bool),
        s.cache = none ∨ force = true →
        (DataSource.fetch (.factory f) s force).events =
          match f s.calls with
          | .ok d => [DSEvent.loading, DSEvent.load d]
          | .error e => [DSEvent.loading, DSEvent.error e]) := by
  refine ⟨?_, ?_, ?_, ?_⟩
  · intro input s c h
    simp [DataSource.fetch, h]
  · intro items s force h
    rcases h with h | h
    · cases force <;> simp [DataSource.fetch, h]
    · subst h
      rcases hc : s.cache with _ | c <;> simp [DataSource.fetch, hc]
  · intro r s force h
    rcases h with h | h
    · cases force <;> cases r <;> simp [DataSource.fetch, h]
    · subst h
      rcases hc : s.cache with _ | c <;> cases r <;> simp [DataSource.fetch, hc]
  · intro f s force h
    rcases h with h | h
    · cases force <;> rcases hr : f s.calls with d | e <;>
        simp [DataSource.fetch, h, hr]
    · subst h
      rcases hc : s.cache with _ | c <;> rcases hr : f s.calls with d | e <;>
        simp [DataSource.fetch, hc, hr]

/-- Witness for the amended C2 at concrete inputs. -/
theorem C2_event_ordering_witness :
    (DataSource.fetch (ε := String) (.future (.ok [itemX]))
        { cache := none, loading := false, calls := 0 } false).events =
      [DSEvent.loading, DSEvent.load [itemX]] ∧
    (DataSource.fetch (ε := String) (.future (.error "boom"))
        { cache := none, loading := false, calls := 0 } false).events =
      [DSEvent.loading, DSEvent.error "boom"] :=
  ⟨C2_event_ordering_amended.2.2.1 (.ok [itemX]) _ false (Or.inl rfl),
   C2_event_ordering_amended.2.2.1 (.error "boom") _ false (Or.inl rfl)⟩

/-! ### Claim C3 — factory cache idempotence -/

/-- C3: for a factory-backed DataSource whose first invocation succeeds,
two sequential plain `fetch()` calls invoke the factory exactly once
(the invocation counter stays at 1, the second call returns the cached
collection with no events), while `fetch(true)` always invokes the
factory again (the counter increments from any state). -/
theorem C3_factory_cache_idempotent {ε : Type} (f : Nat → Except ε (List Item))
    (d : List Item) (h : f 0 = .ok d) :
    (DataSource.fetch (.factory f) (DataSource.init (.factory f)) false).state.calls = 1 ∧
    (DataSource.fetch (.factory f) (DataSource.init (.factory f)) false).state.cache = some d ∧
    (DataSource.fetch (.factory f)
        (DataSource.fetch (.factory f) (DataSource.init (.factory f)) false).state
        false).state.calls = 1 ∧
    (DataSource.fetch (.factory f)
        (DataSource.fetch (.factory f) (DataSource.init (.factory f)) false).state
        false).events = [] ∧
    (DataSource.fetch (.factory f)
        (DataSource.fetch (.factory f) (DataSource.init (.factory f)) false).state
        false).result = .ok d ∧
    (∀ s : DSState ε, (DataSource.fetch (.factory f) s true).state.calls = s.calls + 1) := by
  refine ⟨?_, ?_, ?_, ?_, ?_, ?_⟩
  · simp [DataSource.fetch, DataSource.init, h]
  · simp [DataSource.fetch, DataSource.init, h]
  · simp [DataSource.fetch, DataSource.init, h]
  · simp [DataSource.fetch, DataSource.init, h]
  · simp [DataSource.fetch, DataSource.init, h]
  · intro s
    rcases hc : s.cache with _ | c <;> rcases hr : f s.calls with d1 | e <;>
      simp [DataSource.fetch, hc, hr]

/-- Witness for C3 at a concrete factory. -/
theorem C3_factory_cache_idempotent_witness :
    (DataSource.fetch (ε := String) (.factory fun _ => .ok [itemX])
        (DataSource.fetch (ε := String) (.factory fun _ => .ok [itemX])
           (DataSource.init (.factory fun _ => .ok [itemX])) false).state
        false).state.calls = 1 ∧
    (DataSource.fetch (ε := String) (.factory fun _ => .ok [itemX])
        (DataSource.fetch (ε := String) (.factory fun _ => .ok [itemX])
           (DataSource.init (.factory fun _ => .ok [itemX])) false).state
        false).events = [] :=
  ⟨(C3_factory_cache_idempotent (fun _ => .ok [itemX]) [itemX] rfl).2.2.1,
   (C3_factory_cache_idempotent (fun _ => .ok [itemX]) [itemX] rfl).2.2.2.1⟩

/-! ### Claim C4 — fetch failure handling -/

/-- C4: when the awaited future rejects (future-backed, or factory-backed
via the current factory invocation), fetch clears the loading flag, emits
`error` with the failure value, propagates the rejection to the caller,
and leaves the cache exactly as it was; moreover a future-backed fetch
rejects if and only if it reached the asynchronous branch and the
underlying future rejected (a cache hit always resolves). -/
theorem C4_fetch_failure_propagation {ε : Type} :
    (∀ (e : ε) (s : DSState ε) (force : Bool),
        s.cache = none ∨ force = true →
        (DataSource.fetch (.future (.error e)) s force).state.cache = s.cache ∧
        (DataSource.fetch (.future (.error e)) s force).state.loading = false ∧
        (DataSource.fetch (.future (.error e)) s force).events =
          [DSEvent.loading, DSEvent.error e] ∧
        (DataSource.fetch (.future (.error e)) s force).result = .error e)
    ∧ (∀ (f : Nat → Except ε (List Item)) (e : ε) (s : DSState ε) (force : Bool),
        s.cache = none ∨ force = true → f s.calls = .error e →
        (DataSource.fetch (.factory f) s force).state.cache = s.cache ∧
        (DataSource.fetch (.factory f) s force).state.loading = false ∧
        (DataSource.fetch (.factory f) s force).events =
          [DSEvent.loading, DSEvent.error e] ∧
        (DataSource.fetch (.factory f) s force).result = .error e)
    ∧ (∀ (r : Except ε (List Item)) (s : DSState ε) (force : Bool) (e : ε),
        (DataSource.fetch (.future r) s force).result = .error e ↔
          ((s.cache = none ∨ force = true) ∧ r = .error e)) := by
  refine ⟨?_, ?_, ?_⟩
  · intro e s force h
    rcases h with h | h
    · cases force <;> simp [DataSource.fetch, h]
    · subst h
      rcases hc : s.cache with _ | c <;> simp [DataSource.fetch, hc]
  · intro f e s force h hr
    rcases h with h | h
    · cases force <;> simp [DataSource.fetch, h, hr]
    · subst h
      rcases hc : s.cache with _ | c <;> simp [DataSource.fetch, hc, hr]
  · intro r s force e
    rcases hc : s.cache with _ | c <;> cases force <;> cases r <;>
      simp [DataSource.fetch, hc]

/-- Witness for C4 at a concrete rejecting future. -/
theorem C4_fetch_failure_propagation_witness :
    (DataSource.fetch (ε := String) (.future (.error "boom"))
        { cache := some [itemX], loading := false, calls := 0 } true).state.cache =
      some [itemX] ∧
    (DataSource.fetch (ε := String) (.future (.error "boom"))
        { cache := some [itemX], loading := false, calls := 0 } true).events =
      [DSEvent.loading, DSEvent.error "boom"] :=
  ⟨(C4_fetch_failure_propagation.1 "boom" _ true (Or.inr rfl)).1,
   (C4_fetch_failure_propagation.1 "boom" _ true (Or.inr rfl)).2.2.1⟩

/-! ### Claim C7 — findNextEnabledIndex -/

/-- C7: `findNextEnabledIndex` either returns an in-bounds enabled index
or the original `currentIndex` unchanged (clamp, no wraparound, no
out-of-bounds result beyond echoing the input); when it moves, it moved
strictly in the requested direction and every index it skipped over holds
a disabled entry (so it lands on the first enabled index it reaches);
when it returns `currentIndex` although the walk started inside the
range, the whole remaining range in that direction is disabled.
Concretely, over `[A, B(disabled), C]` starting focused at `A` (index 0),
one or two downward steps land on `C` (index 2) and never on `B`. -/
theorem C7_find_next_enabled_index :
    (∀ (items : List Item) (cur r : Int) (dir : Direction),
        DropdownComponent.findNextEnabledIndex cur dir items = r →
        (r = cur ∨ (0 ≤ r ∧ r < items.length ∧
            ∃ it, entryAt items r = some it ∧ it.disabled = false)) ∧
        (dir = .down → r ≠ cur →
            cur < r ∧ ∀ k : Int, cur < k → k < r →
              ∃ it, entryAt items k = some it ∧ it.disabled = true) ∧
        (dir = .up → r ≠ cur →
            r < cur ∧ ∀ k : Int, r < k → k < cur →
              ∃ it, entryAt items k = some it ∧ it.disabled = true) ∧
        (dir = .down → r = cur → 0 ≤ cur + 1 →
            ∀ k : Int, cur < k → 0 ≤ k → k < items.length →
              ∃ it, entryAt items k = some it ∧ it.disabled = true) ∧
        (dir = .up → r = cur → cur - 1 < items.length →
            ∀ k : Int, k < cur → 0 ≤ k → k < items.length →
              ∃ it, entryAt items k = some it ∧ it.disabled = true))
    ∧ DropdownComponent.findNextEnabledIndex 0 .down demoABC = 2
    ∧ DropdownComponent.findNextEnabledIndex 2 .down demoABC = 2 := by
  refine ⟨?_, ?_, ?_⟩
  · intro items cur r dir hr
    cases dir with
    | down =>
      simp only [DropdownComponent.findNextEnabledIndex] at hr
      rcases hs : DropdownComponent.scanStepDown items (cur + 1) with _ | j
      · rw [hs] at hr
        simp only [Option.getD_none] at hr
        subst hr
        refine ⟨Or.inl rfl, ?_, ?_, ?_, ?_⟩
        · intro _ hne
          exact absurd rfl hne
        · intro h
          exact nomatch h
        · intro _ _ hpos k hk1 hk2 hk3
          exact DropdownComponent.scanStepDown_none items (cur + 1) hs hpos k
            (by omega) hk2 hk3
        · intro h
          exact nomatch h
      · rw [hs] at hr
        simp only [Option.getD_some] at hr
        subst hr
        have hsome := DropdownComponent.scanStepDown_some items (cur + 1) j hs
        refine ⟨Or.inr ⟨hsome.2.1, hsome.2.2.1, hsome.2.2.2.1⟩, ?_, ?_, ?_, ?_⟩
        · intro _ _
          exact ⟨by omega, fun k hk1 hk2 => hsome.2.2.2.2 k (by omega) hk2⟩
        · intro h
          exact nomatch h
        · intro _ hrc
          exfalso
          have := hsome.1
          omega
        · intro h
          exact nomatch h
    | up =>
      simp only [DropdownComponent.findNextEnabledIndex] at hr
      rcases hs : DropdownComponent.scanStepUp items (cur - 1) with _ | j
      · rw [hs] at hr
        simp only [Option.getD_none] at hr
        subst hr
        refine ⟨Or.inl rfl, ?_, ?_, ?_, ?_⟩
        · intro h
          exact nomatch h
        · intro _ hne
          exact absurd rfl hne
        · intro h
          exact nomatch h
        · intro _ _ hlt k hk1 hk2 hk3
          exact DropdownComponent.scanStepUp_none items (cur - 1) hs hlt k
            (by omega) hk2 hk3
      · rw [hs] at hr
        simp only [Option.getD_some] at hr
        subst hr
        have hsome := DropdownComponent.scanStepUp_some items (cur - 1) j hs
        refine ⟨Or.inr ⟨hsome.2.1, hsome.2.2.1, hsome.2.2.2.1⟩, ?_, ?_, ?_, ?_⟩
        · intro h
          exact nomatch h
        · intro _ _
          exact ⟨by omega, fun k hk1 hk2 => hsome.2.2.2.2 k hk1 (by omega)⟩
        · intro h
          exact nomatch h
        · intro _ hrc
          exfalso
          have := hsome.1
          omega
  · simp [DropdownComponent.findNextEnabledIndex, DropdownComponent.scanStepDown,
      demoABC, Int.toNat_ofNat]
  · simp [DropdownComponent.findNextEnabledIndex, DropdownComponent.scanStepDown,
      demoABC, Int.toNat_ofNat]

/-- Witness for C7: the concrete disabled-skip run, and the skipped index
1 really holds the disabled entry B. -/
theorem C7_find_next_enabled_index_witness :
    DropdownComponent.findNextEnabledIndex 0 .down demoABC = 2 ∧
    (∃ it, entryAt demoABC 1 = some it ∧ it.disabled = true) := by
  have h2 := C7_find_next_enabled_index.2.1
  have hmain := (C7_find_next_enabled_index.1 demoABC 0 2 .down h2).2.1 rfl
    (by decide)
  exact ⟨h2, hmain.2 1 (by decide) (by decide)⟩

/-! ### Claim C1 — disabled entries and the selection -/

/-- C1 evaluated at the failing inputs: the constructor resolution of the
initial `values` puts the DISABLED entry B into `selectedItems` (no
disabled filter on line 53), and the multiselect pointer path toggles the
disabled entry B into the selection while a click on the enabled entry A
does nothing (the guard on line 245 proceeds only when the disabled CSS
class IS present).  The remaining parts of the claim do hold: the
single-select programmatic setter refuses the disabled entry and the
keyboard Enter/Space activation refuses a disabled focused entry. -/
theorem C1_disabled_selection_failing_inputs :
    itemB.disabled = true ∧
    (MultiselectComponent.construct [itemA, itemB] (some [JSValue.num 2])).selectedItems
      = [itemB] ∧
    (MultiselectComponent.mousedownOnItem Option.none
        (MultiselectComponent.construct [itemA, itemB] Option.none) 1).1.selectedItems
      = [itemB] ∧
    (MultiselectComponent.mousedownOnItem Option.none
        (MultiselectComponent.construct [itemA, itemB] Option.none) 0)
      = (MultiselectComponent.construct [itemA, itemB] Option.none, []) ∧
    DropdownComponent.valueSetterResolves [itemA, itemB] (JSValue.num 2) = Option.none ∧
    ComboboxComponent.valueSetterResolves [itemA, itemB] (JSValue.num 2) = Option.none ∧
    (MultiselectComponent.keydownActivate Option.none
        { MultiselectComponent.construct [itemA, itemB] Option.none with focusedIndex := 1 })
      = ({ MultiselectComponent.construct [itemA, itemB] Option.none with focusedIndex := 1 },
         []) :=
  ⟨rfl, by decide, by decide, by decide, by decide, by decide, by decide⟩

/-! ### Claim C5 — selection ceiling only on the interactive path -/

/-- C5: an interactive toggle of an unselected entry is refused with no
state change and no event once the selection has reached the finite
ceiling, it appends the entry and emits `change` while strictly below the
ceiling, removal by toggle is always allowed (and emits `change`), and
the programmatic `value(values)` setter takes no ceiling into account at
all — concretely it selects 3 entries. -/
theorem C5_max_selected_items_interactive_only :
    (∀ (m : Nat) (st : MultiselectState) (item : Item),
        st.selectedItems.any (fun i => i.value == item.value) = false →
        m ≤ st.selectedItems.length →
        MultiselectComponent.toggleItem (some m) st item = (st, []))
    ∧ (∀ (m : Nat) (st : MultiselectState) (item : Item),
        st.selectedItems.any (fun i => i.value == item.value) = false →
        st.selectedItems.length < m →
        (MultiselectComponent.toggleItem (some m) st item).1.selectedItems =
          st.selectedItems ++ [item] ∧
        (MultiselectComponent.toggleItem (some m) st item).2 =
          [st.selectedItems ++ [item]])
    ∧ (∀ (maxSel : Option Nat) (st : MultiselectState) (item : Item),
        st.selectedItems.any (fun i => i.value == item.value) = true →
        (MultiselectComponent.toggleItem maxSel st item).1.selectedItems =
          st.selectedItems.filter (fun i => !(i.value == item.value)) ∧
        (MultiselectComponent.toggleItem maxSel st item).2 =
          [st.selectedItems.filter (fun i => !(i.value == item.value))])
    ∧ (MultiselectComponent.valueSet (MultiselectComponent.construct demoRGB Option.none)
        [JSValue.num 1, JSValue.num 2, JSValue.num 3]).1.selectedItems.length = 3 := by
  refine ⟨?_, ?_, ?_, ?_⟩
  · intro m st item h1 h2
    have hlim : MultiselectComponent.atLimit (some m) st.selectedItems.length = true := by
      simp [MultiselectComponent.atLimit]
      omega
    simp [MultiselectComponent.toggleItem, h1, hlim]
  · intro m st item h1 h2
    have hlim : MultiselectComponent.atLimit (some m) st.selectedItems.length = false := by
      simp [MultiselectComponent.atLimit]
      omega
    simp [MultiselectComponent.toggleItem, h1, hlim,
      MultiselectComponent.setSelectedItems, MultiselectComponent.updateAllSelectedState]
  · intro maxSel st item h1
    simp [MultiselectComponent.toggleItem, h1,
      MultiselectComponent.setSelectedItems, MultiselectComponent.updateAllSelectedState]
  · decide

/-- Witness for C5 at concrete inputs: with a ceiling of 1 and the entry
A already selected, toggling C is refused, while toggling A removes it. -/
theorem C5_max_selected_items_interactive_only_witness :
    MultiselectComponent.toggleItem (some 1)
        { MultiselectComponent.construct [itemA, itemC] Option.none with
            selectedItems := [itemA] } itemC =
      ({ MultiselectComponent.construct [itemA, itemC] Option.none with
            selectedItems := [itemA] }, []) ∧
    (MultiselectComponent.toggleItem (some 1)
        { MultiselectComponent.construct [itemA, itemC] Option.none with
            selectedItems := [itemA] } itemA).1.selectedItems = [] :=
  ⟨C5_max_selected_items_interactive_only.1 1 _ itemC (by decide) (by decide),
   by
    have h := (C5_max_selected_items_interactive_only.2.2.1 (some 1)
      { MultiselectComponent.construct [itemA, itemC] Option.none with
          selectedItems := [itemA] } itemA (by decide)).1
    rw [h]
    decide⟩

/-! ### Claim C6 — the allSelected flag -/

/-- C6 counterexample: the claim states `allSelected` is true iff the set
of enabled entries' values is a subset of, and equal in size to, the set
of selected values.  (i) In the reachable state right after constructing
an empty multiselect both value sets are empty, so the spec condition
holds, yet the code flag is false (the code requires a nonempty data
set).  (ii) After constructing with `values` resolving to the disabled
entry B and calling `setItems` with the same data, the code flag is true
(it only compares LENGTHS, enabled = [A] and selected = [B] both have
length 1) although the enabled value set is not a subset of the selected
one. -/
theorem C6_all_selected_counterexample :
    ((MultiselectComponent.construct [] Option.none).allSelected = false ∧
      specAllSelected (MultiselectComponent.construct [] Option.none)) ∧
    ((MultiselectComponent.setItems
        (MultiselectComponent.construct [itemA, itemB] (some [JSValue.num 2]))
        [itemA, itemB]).allSelected = true ∧
      ¬ specAllSelected (MultiselectComponent.setItems
        (MultiselectComponent.construct [itemA, itemB] (some [JSValue.num 2]))
        [itemA, itemB])) :=
  ⟨⟨rfl, by decide⟩, ⟨by decide, by decide⟩⟩

/-- C6 (amended): the code derives `allSelected` from lengths only.
After a recomputation it is true iff the enabled entries are nonempty and
the selection has exactly their number; at construction it is true iff
the initial selection has the length of the WHOLE item list and the list
is nonempty; after `setItems` it is true iff the new enabled entries are
nonempty and the intersected selection matches their number.  It is
recomputed by every selection mutation and every data-set replacement,
but no subset comparison is ever made. -/
theorem C6_all_selected_amended :
    (∀ st : MultiselectState,
        (MultiselectComponent.updateAllSelectedState st).allSelected = true ↔
          (0 < (st.dataItems.filter (fun x => !x.disabled)).length ∧
           st.selectedItems.length =
             (st.dataItems.filter (fun x => !x.disabled)).length))
    ∧ (∀ (items : List Item) (vs : List JSValue),
        (MultiselectComponent.construct items (some vs)).allSelected = true ↔
          ((items.filter (fun item => vs.contains item.value)).length = items.length ∧
           0 < items.length))
    ∧ (∀ (st : MultiselectState) (items : List Item),
        (MultiselectComponent.setItems st items).allSelected = true ↔
          (0 < (items.filter (fun x => !x.disabled)).length ∧
           (st.selectedItems.filter (fun sel =>
              items.any (fun i => i.value == sel.value))).length =
             (items.filter (fun x => !x.disabled)).length)) := by
  refine ⟨?_, ?_, ?_⟩
  · intro st
    simp [MultiselectComponent.updateAllSelectedState]
  · intro items vs
    simp [MultiselectComponent.construct]
  · intro st items
    simp [MultiselectComponent.setItems, MultiselectComponent.setDataItems,
      MultiselectComponent.setSelectedItems, MultiselectComponent.updateAllSelectedState,
      MultiselectComponent.applyFilter]

/-- Witness for the amended C6 at a concrete data replacement. -/
theorem C6_all_selected_amended_witness :
    (MultiselectComponent.setItems
        (MultiselectComponent.construct [itemA] (some [JSValue.num 1]))
        [itemA]).allSelected = true :=
  (C6_all_selected_amended.2.2
      (MultiselectComponent.construct [itemA] (some [JSValue.num 1])) [itemA]).mpr
    (by decide)

/-! ### Claim C8 — the combobox filter function -/

/-- C8: below the minimum-length threshold the full collection is
returned; the `none` strategy always returns the full collection; and for
the `contains` and `startsWith` strategies an entry survives the filter
iff its lower-cased display text includes (respectively begins with) the
lower-cased filter text. -/
theorem C8_apply_filter :
    (∀ (strategy : FilterStrategy) (minLen : Nat) (items : List Item) (t : String),
        t.length < minLen →
        ComboboxComponent.applyFilter strategy minLen items t = items)
    ∧ (∀ (minLen : Nat) (items : List Item) (t : String),
        ComboboxComponent.applyFilter .none minLen items t = items)
    ∧ (∀ (minLen : Nat) (items : List Item) (t : String) (it : Item),
        t ≠ "" → minLen ≤ t.length →
        (it ∈ ComboboxComponent.applyFilter .contains minLen items t ↔
          it ∈ items ∧ occursIn (lowerList t) (lowerList it.text) = true))
    ∧ (∀ (minLen : Nat) (items : List Item) (t : String) (it : Item),
        t ≠ "" → minLen ≤ t.length →
        (it ∈ ComboboxComponent.applyFilter .startsWith minLen items t ↔
          it ∈ items ∧ leadsWith (lowerList t) (lowerList it.text) = true)) := by
  refine ⟨?_, ?_, ?_, ?_⟩
  · intro strategy minLen items t h
    unfold ComboboxComponent.applyFilter
    rw [if_pos (Or.inr h)]
  · intro minLen items t
    unfold ComboboxComponent.applyFilter
    split
    · rfl
    · rfl
  · intro minLen items t it h1 h2
    have hc : ¬(t = "" ∨ t.length < minLen) := by
      push_neg
      exact ⟨h1, by omega⟩
    unfold ComboboxComponent.applyFilter
    rw [if_neg hc]
    simp [List.mem_filter]
  · intro minLen items t it h1 h2
    have hc : ¬(t = "" ∨ t.length < minLen) := by
      push_neg
      exact ⟨h1, by omega⟩
    unfold ComboboxComponent.applyFilter
    rw [if_neg hc]
    simp [List.mem_filter]

/-- Witness for C8 evaluated over the demo cities: a filter text shorter
than the threshold returns everything, the `none` strategy returns
everything, and the case-insensitive `contains` match keeps Moscow for
the filter text mo. -/
theorem C8_apply_filter_witness :
    ComboboxComponent.applyFilter .contains 5 demoCities "mo" = demoCities ∧
    ComboboxComponent.applyFilter .none 0 demoCities "zzz" = demoCities ∧
    (itemMoscow ∈ ComboboxComponent.applyFilter .contains 1 demoCities "mo" ↔
      itemMoscow ∈ demoCities ∧
        occursIn (lowerList "mo") (lowerList itemMoscow.text) = true) :=
  ⟨C8_apply_filter.1 .contains 5 demoCities "mo" (by decide),
   C8_apply_filter.2.1 0 demoCities "zzz",
   C8_apply_filter.2.2.1 1 demoCities "mo" itemMoscow (by decide) (by decide)⟩

/-! ### Claim C9 — focusedIndex reset -/

/-- C9 counterexample: the claim states `focusedIndex` resets to -1
whenever the visible collection changes identity, including a data
replacement via `setItems`.  Replacing the data of a combobox focused at
index 1 changes the filtered collection but leaves `focusedIndex` at 1:
the `setItems` bodies (combobox, dropdown, multiselect) never touch
`focusedIndex`. -/
theorem C9_focus_reset_counterexample :
    (ComboboxComponent.setItems .contains 0 cbStateCX [itemC]).filteredItems = [itemC] ∧
    cbStateCX.filteredItems ≠ [itemC] ∧
    (ComboboxComponent.setItems .contains 0 cbStateCX [itemC]).focusedIndex = 1 ∧
    (ComboboxComponent.setItems .contains 0 cbStateCX [itemC]).focusedIndex ≠ -1 := by
  refine ⟨by decide, by decide, by decide, by decide⟩

/-- C9 (amended): `focusedIndex` is reset to -1 by every filter-text
change (the combobox and multiselect `filterText` subscriptions), while
replacing the data set via `setItems` leaves `focusedIndex` unchanged in
all three widgets. -/
theorem C9_focus_reset_amended :
    (∀ (strategy : FilterStrategy) (minLen : Nat) (st : ComboboxState) (t : String),
        (ComboboxComponent.setFilterText strategy minLen st t).1.focusedIndex = -1)
    ∧ (∀ (st : MultiselectState) (t : String),
        (MultiselectComponent.setFilterText st t).focusedIndex = -1)
    ∧ (∀ (strategy : FilterStrategy) (minLen : Nat) (st : ComboboxState)
          (items : List Item),
        (ComboboxComponent.setItems strategy minLen st items).focusedIndex =
          st.focusedIndex)
    ∧ (∀ (st : MultiselectState) (items : List Item),
        (MultiselectComponent.setItems st items).focusedIndex = st.focusedIndex)
    ∧ (∀ (st : DropdownState) (items : List Item),
        (DropdownComponent.setItems st items).focusedIndex = st.focusedIndex) := by
  refine ⟨?_, ?_, ?_, ?_, ?_⟩
  · intro strategy minLen st t
    rfl
  · intro st t
    rfl
  · intro strategy minLen st items
    cases hsel : st.selectedItem with
    | none => simp [ComboboxComponent.setItems, hsel]
    | some sel =>
        simp only [ComboboxComponent.setItems, hsel]
        split <;> rfl
  · intro st items
    rfl
  · intro st items
    cases hsel : st.selectedItem with
    | none => simp [DropdownComponent.setItems, hsel]
    | some sel =>
        simp only [DropdownComponent.setItems, hsel]
        split <;> rfl

/-! ### Claim C10 — no aliasing of caller-held arrays -/

/-- C10: the `value()` getter returns a fresh reference distinct from the
internal `selectedItems` cell holding an equal array, and mutating
through the returned reference leaves the internal cell unchanged;
`setItems` stores a fresh copy of the caller array, so mutating the
caller array afterwards leaves the stored cell unchanged. -/
theorem C10_no_state_aliasing :
    (∀ (h : Heap) (r : Nat) (v : List Item), r < h.cells.length →
        (MultiselectComponent.valueGetCopy h r).2 ≠ r ∧
        (MultiselectComponent.valueGetCopy h r).1.read
            (MultiselectComponent.valueGetCopy h r).2 = h.read r ∧
        ((MultiselectComponent.valueGetCopy h r).1.write
            (MultiselectComponent.valueGetCopy h r).2 v).read r = h.read r)
    ∧ (∀ (h : Heap) (rc : Nat) (v : List Item), rc < h.cells.length →
        (MultiselectComponent.setItemsCopy h rc).2 ≠ rc ∧
        ((MultiselectComponent.setItemsCopy h rc).1.write rc v).read
            (MultiselectComponent.setItemsCopy h rc).2 = h.read rc) := by
  constructor
  · intro h r v hr
    refine ⟨by simp [MultiselectComponent.valueGetCopy, Heap.alloc]; omega, ?_, ?_⟩
    · show Heap.read ⟨h.cells ++ [h.read r]⟩ h.cells.length = h.read r
      simp [Heap.read, List.getD_eq_getElem?_getD, List.getElem?_concat_length]
    · show Heap.read ⟨(h.cells ++ [h.read r]).set h.cells.length v⟩ r = h.read r
      rw [Heap.read, List.getD_eq_getElem?_getD,
        List.getElem?_set_ne (by omega),
        List.getElem?_append_left hr]
      rw [Heap.read, List.getD_eq_getElem?_getD]
  · intro h rc v hrc
    refine ⟨by simp [MultiselectComponent.setItemsCopy, Heap.alloc]; omega, ?_⟩
    show Heap.read ⟨(h.cells ++ [h.read rc]).set rc v⟩ h.cells.length = h.read rc
    rw [Heap.read, List.getD_eq_getElem?_getD,
      List.getElem?_set_ne (by omega),
      List.getElem?_concat_length]
    rfl

/-- Witness for C10 on a one-cell heap: overwriting through the fresh
reference leaves the original cell intact. -/
theorem C10_no_state_aliasing_witness :
    (MultiselectComponent.valueGetCopy ⟨[[itemA]]⟩ 0).2 ≠ 0 ∧
    ((MultiselectComponent.valueGetCopy ⟨[[itemA]]⟩ 0).1.write
        (MultiselectComponent.valueGetCopy ⟨[[itemA]]⟩ 0).2 []).read 0 = [itemA] :=
  ⟨(C10_no_state_aliasing.1 ⟨[[itemA]]⟩ 0 [] (by decide)).1,
   (C10_no_state_aliasing.1 ⟨[[itemA]]⟩ 0 [] (by decide)).2.2⟩

end StkDropdown
